import Mathlib

/-!
Verification of the MechanoAI digital-twin simulation core
(`src/digital_twin.py`).

The physical quantities are embedded as exact rationals.  Each call of
`np.random.normal` in the source is modelled as one injected noise value:
a `Noise` record carries the five draws one `ManufacturingMachine.update`
consumes, in program order.  Python float `%` on a positive modulus is
floored modulo, embedded as `qmod`.  The matplotlib plumbing of
`DigitalTwin.update` (line artists, axes) is out of scope per the spec;
the data the returned line artists carry is modelled by
`DigitalTwin.updateReturn`.
-/

namespace MechanoAI

/-- `np.clip(x, lo, hi) = minimum(hi, maximum(lo, x))`. -/
def clip (x lo hi : ℚ) : ℚ := min hi (max lo x)

/-- Python float `%` with a positive right operand: floored modulo. -/
def qmod (a b : ℚ) : ℚ := a - b * ⌊a / b⌋

/-- The five normal draws one `ManufacturingMachine.update` consumes,
in the order the source draws them (temperature, production, power,
pressure, stress). -/
structure Noise where
  temp : ℚ
  prod : ℚ
  power : ℚ
  pressure : ℚ
  stress : ℚ
deriving DecidableEq, Repr

/-- The all-zero noise record (noise forced to zero for a tick). -/
def Noise.zero : Noise := ⟨0, 0, 0, 0, 0⟩

/-- State of `ManufacturingMachine` (src/digital_twin.py lines 10-28). -/
structure ManufacturingMachine where
  temperature : ℚ
  max_temp : ℚ
  optimal_temp : ℚ
  production_rate : ℚ
  power_consumption : ℚ
  pressure : ℚ
  stress : ℚ
deriving DecidableEq, Repr

/-- `ManufacturingMachine.__init__` (lines 11-18): stores the five
parameters unchanged and sets `pressure = 1.0`, `stress = 1.0`. -/
def ManufacturingMachine.init (initial_temp max_temp optimal_temp
    initial_production_rate initial_power : ℚ) : ManufacturingMachine :=
  { temperature := initial_temp
    max_temp := max_temp
    optimal_temp := optimal_temp
    production_rate := initial_production_rate
    power_consumption := initial_power
    pressure := 1
    stress := 1 }

/-- `temp_factor = 1 - abs(temperature - optimal_temp) / optimal_temp`
(line 23). -/
def temp_factor (temperature optimal_temp : ℚ) : ℚ :=
  1 - |temperature - optimal_temp| / optimal_temp

/-- `ManufacturingMachine.update` (lines 20-28) with the noise draws
injected. -/
def ManufacturingMachine.update (m : ManufacturingMachine) (w : Noise) :
    ManufacturingMachine :=
  let t := clip (m.temperature + w.temp) 0 m.max_temp
  let tf := temp_factor t m.optimal_temp
  { m with
    temperature := t
    production_rate := max 0 (m.production_rate * tf + w.prod)
    power_consumption := clip (m.power_consumption + w.power) 0 100
    pressure := m.pressure + w.pressure
    stress := m.stress + w.stress }

/-- `ManufacturingMachine.update` with the division by `optimal_temp`
guarded: the error branch of the only partial operation in `update`
(line 23) is made explicit. -/
def ManufacturingMachine.updateChecked (m : ManufacturingMachine)
    (w : Noise) : Option ManufacturingMachine :=
  if m.optimal_temp = 0 then none else some (m.update w)

/-- State of `DigitalTwin` (lines 30-51), simulation fields only. -/
structure DigitalTwin where
  machine : ManufacturingMachine
  time : List ℤ
  temp_history : List ℚ
  prod_history : List ℚ
  power_history : List ℚ
  pressure_history : List ℚ
  stress_history : List ℚ
  rotation : ℚ
deriving DecidableEq, Repr

/-- `DigitalTwin.__init__` (lines 31-39): empty histories, rotation 0. -/
def DigitalTwin.init (machine : ManufacturingMachine) : DigitalTwin :=
  { machine := machine
    time := []
    temp_history := []
    prod_history := []
    power_history := []
    pressure_history := []
    stress_history := []
    rotation := 0 }

/-- `DigitalTwin.update` (lines 41-51), the per-tick driver step:
updates the machine once, appends the post-update values to the
histories, and wraps the rotation angle. -/
def DigitalTwin.update (d : DigitalTwin) (frame : ℤ) (w : Noise) :
    DigitalTwin :=
  let m := d.machine.update w
  { machine := m
    time := d.time ++ [frame]
    temp_history := d.temp_history ++ [m.temperature]
    prod_history := d.prod_history ++ [m.production_rate]
    power_history := d.power_history ++ [m.power_consumption]
    pressure_history := d.pressure_history ++ [m.pressure]
    stress_history := d.stress_history ++ [m.stress]
    rotation := qmod (d.rotation + m.production_rate * 5) 360 }

/-- `DigitalTwin.update` with the machine update guarded as in
`ManufacturingMachine.updateChecked`; no other operation of the tick
can fail. -/
def DigitalTwin.updateChecked (d : DigitalTwin) (frame : ℤ) (w : Noise) :
    Option DigitalTwin :=
  (d.machine.updateChecked w).map fun m =>
    { machine := m
      time := d.time ++ [frame]
      temp_history := d.temp_history ++ [m.temperature]
      prod_history := d.prod_history ++ [m.production_rate]
      power_history := d.power_history ++ [m.power_consumption]
      pressure_history := d.pressure_history ++ [m.pressure]
      stress_history := d.stress_history ++ [m.stress]
      rotation := qmod (d.rotation + m.production_rate * 5) 360 }

/-- Running the driver over a finite sequence of ticks, each tick given
its frame index and its noise draws. -/
def DigitalTwin.run (d : DigitalTwin) (steps : List (ℤ × Noise)) :
    DigitalTwin :=
  steps.foldl (fun a s => a.update s.1 s.2) d

/-- What line 115 actually returns, by data content: the five history
line artists, each carrying `set_data(time, history)` of the respective
quantity after the tick. -/
def DigitalTwin.updateReturn (d : DigitalTwin) (frame : ℤ) (w : Noise) :
    List (List ℤ × List ℚ) :=
  let d1 := d.update frame w
  [ (d1.time, d1.temp_history)
  , (d1.time, d1.prod_history)
  , (d1.time, d1.power_history)
  , (d1.time, d1.pressure_history)
  , (d1.time, d1.stress_history) ]

/-- The machine instantiated at line 147 with the documented
parameters. -/
def machine : ManufacturingMachine :=
  ManufacturingMachine.init 70 100 75 10 50

/-- The driver instantiated at line 148. -/
def digital_twin : DigitalTwin := DigitalTwin.init machine

/-- The driver state of line 148 with its rotation field overwritten;
used to exhibit that the tick's return value does not carry rotation. -/
def twinB : DigitalTwin := { digital_twin with rotation := 90 }

/-- The bounds the spec asserts as the machine invariant. -/
def MachineInv (m : ManufacturingMachine) : Prop :=
  0 ≤ m.temperature ∧ m.temperature ≤ m.max_temp ∧
  0 ≤ m.power_consumption ∧ m.power_consumption ≤ 100 ∧
  0 ≤ m.production_rate

lemma run_nil (d : DigitalTwin) : d.run [] = d := rfl

lemma run_cons (d : DigitalTwin) (s : ℤ × Noise) (rest : List (ℤ × Noise)) :
    d.run (s :: rest) = (d.update s.1 s.2).run rest := rfl

lemma clip_le_hi (x hi : ℚ) : clip x 0 hi ≤ hi := min_le_left _ _

lemma clip_nonneg (x hi : ℚ) (h : 0 ≤ hi) : 0 ≤ clip x 0 hi :=
  le_min h (le_max_left 0 x)

lemma update_max_temp (m : ManufacturingMachine) (w : Noise) :
    (m.update w).max_temp = m.max_temp := rfl

lemma update_inv (m : ManufacturingMachine) (w : Noise)
    (h : 0 ≤ m.max_temp) : MachineInv (m.update w) := by
  refine ⟨clip_nonneg _ _ h, clip_le_hi _ _, clip_nonneg _ _ (by norm_num),
    clip_le_hi _ _, le_max_left 0 _⟩

lemma run_inv (steps : List (ℤ × Noise)) (d : DigitalTwin)
    (h0 : MachineInv d.machine) (h1 : 0 ≤ d.machine.max_temp) :
    MachineInv ((d.run steps).machine) := by
  induction steps generalizing d with
  | nil => exact h0
  | cons s rest ih =>
      rw [run_cons]
      exact ih _ (update_inv _ _ h1) h1

lemma qmod_mem (a : ℚ) : 0 ≤ qmod a 360 ∧ qmod a 360 < 360 := by
  unfold qmod
  have h1 : ((⌊a / 360⌋ : ℤ) : ℚ) ≤ a / 360 := Int.floor_le _
  have h2 : a / 360 < (⌊a / 360⌋ : ℤ) + 1 := Int.lt_floor_add_one _
  constructor
  · linarith
  · linarith

lemma run_rotation_mem (steps : List (ℤ × Noise)) (d : DigitalTwin)
    (h : 0 ≤ d.rotation ∧ d.rotation < 360) :
    0 ≤ (d.run steps).rotation ∧ (d.run steps).rotation < 360 := by
  induction steps generalizing d with
  | nil => exact h
  | cons s rest ih =>
      rw [run_cons]
      exact ih _ (qmod_mem _)

lemma run_time (steps : List (ℤ × Noise)) (d : DigitalTwin) :
    (d.run steps).time = d.time ++ steps.map Prod.fst := by
  induction steps generalizing d with
  | nil => simp [run_nil]
  | cons s rest ih =>
      rw [run_cons, ih]
      simp [DigitalTwin.update]

/-- Claim C1: for every tick count, every noise sequence, and every
machine constructed with parameters satisfying the documented bounds,
after the driver's tick has run n times the machine state satisfies
`0 ≤ temperature ≤ max_temp`, `0 ≤ power_consumption ≤ 100` and
`production_rate ≥ 0`. -/
theorem C1_bounds_invariant (it mt ot ipr ip : ℚ)
    (steps : List (ℤ × Noise))
    (h1 : 0 ≤ it) (h2 : it ≤ mt) (h3 : 0 ≤ ipr) (h4 : 0 ≤ ip)
    (h5 : ip ≤ 100) :
    MachineInv (((DigitalTwin.init
      (ManufacturingMachine.init it mt ot ipr ip)).run steps).machine) :=
  run_inv steps _ ⟨h1, h2, h4, h5, h3⟩ (h1.trans h2)

theorem C1_bounds_invariant_witness :
    MachineInv (((DigitalTwin.init
      (ManufacturingMachine.init 70 100 75 10 50)).run
        [(0, Noise.zero)]).machine) :=
  C1_bounds_invariant 70 100 75 10 50 [(0, Noise.zero)]
    (by norm_num) (by norm_num) (by norm_num) (by norm_num) (by norm_num)

/-- Claim C2: for the machine of line 147, one update with all noise
draws zero yields `temp_factor = 1 - |70-75|/75 = 14/15`,
`production_rate = max(0, 10 * 14/15) = 28/3`, and leaves temperature,
power, pressure and stress unchanged. -/
theorem C2_zero_noise_scenario :
    temp_factor 70 75 = 14 / 15 ∧
    (machine.update Noise.zero).production_rate = 28 / 3 ∧
    (machine.update Noise.zero).temperature = 70 ∧
    (machine.update Noise.zero).power_consumption = 50 ∧
    (machine.update Noise.zero).pressure = 1 ∧
    (machine.update Noise.zero).stress = 1 := by
  refine ⟨by norm_num [temp_factor, abs_of_nonpos], ?_, ?_, ?_, ?_, ?_⟩ <;>
    norm_num [machine, ManufacturingMachine.init, ManufacturingMachine.update,
      clip, temp_factor, Noise.zero, abs_of_nonpos]

/-- Claim C3: one tick updates the machine exactly once, appends exactly
one entry of post-update values to each history sequence, records the
frame index, and sets rotation to
`(rotation + production_rate * 5) mod 360` with the post-update
production rate. -/
theorem C3_tick_effects (d : DigitalTwin) (frame : ℤ) (w : Noise) :
    (d.update frame w).machine = d.machine.update w ∧
    (d.update frame w).time = d.time ++ [frame] ∧
    (d.update frame w).temp_history =
      d.temp_history ++ [(d.machine.update w).temperature] ∧
    (d.update frame w).prod_history =
      d.prod_history ++ [(d.machine.update w).production_rate] ∧
    (d.update frame w).power_history =
      d.power_history ++ [(d.machine.update w).power_consumption] ∧
    (d.update frame w).pressure_history =
      d.pressure_history ++ [(d.machine.update w).pressure] ∧
    (d.update frame w).stress_history =
      d.stress_history ++ [(d.machine.update w).stress] ∧
    (d.update frame w).rotation =
      qmod (d.rotation + (d.machine.update w).production_rate * 5) 360 :=
  ⟨rfl, rfl, rfl, rfl, rfl, rfl, rfl, rfl⟩

/-- Claim C4 counterexample: tick's return value is not a snapshot of
all six quantities.  Two driver states that differ only in rotation
yield identical return values from the same tick, while their
post-tick rotations differ, so the returned data cannot carry the
current rotation; line 115 returns the five history line artists
only. -/
theorem C4_counterexample :
    digital_twin.updateReturn 0 Noise.zero =
      twinB.updateReturn 0 Noise.zero ∧
    (digital_twin.update 0 Noise.zero).rotation ≠
      (twinB.update 0 Noise.zero).rotation := by
  constructor
  · rfl
  · show qmod (0 + (machine.update Noise.zero).production_rate * 5) 360 ≠
      qmod (90 + (machine.update Noise.zero).production_rate * 5) 360
    norm_num [machine, ManufacturingMachine.init, ManufacturingMachine.update,
      clip, temp_factor, Noise.zero, abs_of_nonpos, qmod]

/-- Claim C4 as amended: every tick returns the five history plot
lines (temperature, production_rate, power_consumption, pressure,
stress, each paired with the time axis), whose data ends with the
post-update values; rotation is not part of the return value. -/
theorem C4_returns_history_lines (d : DigitalTwin) (frame : ℤ)
    (w : Noise) :
    d.updateReturn frame w =
      [ ((d.update frame w).time, (d.update frame w).temp_history)
      , ((d.update frame w).time, (d.update frame w).prod_history)
      , ((d.update frame w).time, (d.update frame w).power_history)
      , ((d.update frame w).time, (d.update frame w).pressure_history)
      , ((d.update frame w).time, (d.update frame w).stress_history) ] ∧
    (d.update frame w).time.getLast? = some frame ∧
    (d.update frame w).temp_history.getLast? =
      some ((d.machine.update w).temperature) ∧
    (d.update frame w).prod_history.getLast? =
      some ((d.machine.update w).production_rate) ∧
    (d.update frame w).power_history.getLast? =
      some ((d.machine.update w).power_consumption) ∧
    (d.update frame w).pressure_history.getLast? =
      some ((d.machine.update w).pressure) ∧
    (d.update frame w).stress_history.getLast? =
      some ((d.machine.update w).stress) := by
  refine ⟨rfl, ?_, ?_, ?_, ?_, ?_, ?_⟩ <;>
    simp [DigitalTwin.update]

/-- Claim C5: from any driver state whose rotation is 0 (as set by the
constructor), after any finite sequence of ticks the rotation lies in
the half-open interval from 0 to 360. -/
theorem C5_rotation_wraparound (d : DigitalTwin)
    (steps : List (ℤ × Noise)) (h : d.rotation = 0) :
    0 ≤ (d.run steps).rotation ∧ (d.run steps).rotation < 360 :=
  run_rotation_mem steps d (by rw [h]; norm_num)

theorem C5_rotation_wraparound_witness :
    0 ≤ (digital_twin.run [(0, Noise.zero)]).rotation ∧
    (digital_twin.run [(0, Noise.zero)]).rotation < 360 :=
  C5_rotation_wraparound digital_twin [(0, Noise.zero)] rfl

/-- Claim C6 counterexample: the claim quantifies over every finite
sequence of frame indices, but the recorded time axis is exactly the
sequence passed, so a decreasing frame sequence yields a time axis
that is not strictly increasing. -/
theorem C6_counterexample :
    (digital_twin.run [(1, Noise.zero), (0, Noise.zero)]).time =
      [1, 0] ∧
    ¬ List.Chain' (fun a b => a < b)
      (digital_twin.run [(1, Noise.zero), (0, Noise.zero)]).time := by
  have h : (digital_twin.run [(1, Noise.zero), (0, Noise.zero)]).time =
      [1, 0] := by
    rw [run_time]
    rfl
  refine ⟨h, ?_⟩
  rw [h]
  norm_num [List.chain'_cons]

/-- Claim C6 as amended: starting from an empty history, the time axis
after any finite sequence of ticks equals exactly the sequence of
frame indices passed, in order, with no gaps or reordering; hence when
the frames passed are strictly increasing (as in the driver loop
`tick(i)` for i in 0..total_frames-1) the time axis is strictly
increasing. -/
theorem C6_history_ordering (d : DigitalTwin)
    (steps : List (ℤ × Noise)) (h : d.time = []) :
    (d.run steps).time = steps.map Prod.fst ∧
    (List.Chain' (fun a b => a < b) (steps.map Prod.fst) →
      List.Chain' (fun a b => a < b) (d.run steps).time) := by
  have h1 : (d.run steps).time = steps.map Prod.fst := by
    rw [run_time, h, List.nil_append]
  exact ⟨h1, fun hc => h1 ▸ hc⟩

theorem C6_history_ordering_witness :
    (digital_twin.run [(0, Noise.zero), (1, Noise.zero)]).time =
      ([(0, Noise.zero), (1, Noise.zero)].map Prod.fst) ∧
    (List.Chain' (fun a b => a < b)
        ([((0 : ℤ), Noise.zero), (1, Noise.zero)].map Prod.fst) →
      List.Chain' (fun a b => a < b)
        (digital_twin.run [(0, Noise.zero), (1, Noise.zero)]).time) :=
  C6_history_ordering digital_twin [(0, Noise.zero), (1, Noise.zero)] rfl

/-- Claim C7: for every positive optimal temperature, the efficiency
signal of line 23 equals exactly 1 at `temperature = optimal_temp` and
exactly 0 at `temperature = optimal_temp * 2`. -/
theorem C7_efficiency_symmetry (o : ℚ) (h : 0 < o) :
    temp_factor o o = 1 ∧ temp_factor (o * 2) o = 0 := by
  unfold temp_factor
  constructor
  · simp
  · rw [show o * 2 - o = o by ring, abs_of_pos h,
      div_self (ne_of_gt h)]
    ring

theorem C7_efficiency_symmetry_witness :
    temp_factor 75 75 = 1 ∧ temp_factor (75 * 2) 75 = 0 :=
  C7_efficiency_symmetry 75 (by norm_num)

/-- The trace relation of the driver: `Traces d steps tr` holds when a
run of ticks from state `d`, consuming the frame indices and noise
draws of `steps` in order, passes exactly through the states of `tr`
(one state after each tick). -/
inductive DigitalTwin.Traces :
    DigitalTwin → List (ℤ × Noise) → List DigitalTwin → Prop
  | nil (d : DigitalTwin) : DigitalTwin.Traces d [] []
  | cons (d : DigitalTwin) (f : ℤ) (w : Noise)
      (rest : List (ℤ × Noise)) (tr : List DigitalTwin)
      (h : DigitalTwin.Traces (d.update f w) rest tr) :
      DigitalTwin.Traces d ((f, w) :: rest) (d.update f w :: tr)

/-- Claim C8: two runs of tick from identical initial state consuming
the identical sequence of injected noise values produce identical
state trajectories (same machine fields, rotation and histories after
every tick). -/
theorem C8_determinism (d : DigitalTwin) (steps : List (ℤ × Noise))
    (t1 t2 : List DigitalTwin)
    (h1 : DigitalTwin.Traces d steps t1)
    (h2 : DigitalTwin.Traces d steps t2) : t1 = t2 := by
  induction h1 generalizing t2 with
  | nil d => cases h2; rfl
  | cons d f w rest tr h ih =>
      cases h2 with
      | cons _ _ _ _ tr2 h2a => rw [ih tr2 h2a]

theorem C8_determinism_witness :
    [digital_twin.update 0 Noise.zero] =
      [digital_twin.update 0 Noise.zero] :=
  C8_determinism digital_twin [(0, Noise.zero)] _ _
    (DigitalTwin.Traces.cons _ _ _ _ _ (DigitalTwin.Traces.nil _))
    (DigitalTwin.Traces.cons _ _ _ _ _ (DigitalTwin.Traces.nil _))

/-- Claim C9: under the precondition `optimal_temp ≠ 0` the machine
update never fails: the guarded version of the only partial operation
(the division by `optimal_temp` at line 23) takes its non-error
branch, and every other operation of update and of the driver's tick
is total. -/
theorem C9_update_never_fails (m : ManufacturingMachine)
    (d : DigitalTwin) (frame : ℤ) (w : Noise)
    (h1 : m.optimal_temp ≠ 0) (h2 : d.machine.optimal_temp ≠ 0) :
    m.updateChecked w = some (m.update w) ∧
    d.updateChecked frame w = some (d.update frame w) := by
  constructor
  · simp [ManufacturingMachine.updateChecked, h1]
  · simp [DigitalTwin.updateChecked, ManufacturingMachine.updateChecked,
      h2, DigitalTwin.update]

theorem C9_update_never_fails_witness :
    machine.updateChecked Noise.zero =
      some (machine.update Noise.zero) ∧
    digital_twin.updateChecked 0 Noise.zero =
      some (digital_twin.update 0 Noise.zero) :=
  C9_update_never_fails machine digital_twin 0 Noise.zero
    (by norm_num [machine, ManufacturingMachine.init])
    (by norm_num [digital_twin, DigitalTwin.init, machine,
      ManufacturingMachine.init])

/-- Claim C10: construction performs no validation and no clamping:
every argument is stored exactly as passed, even outside the
documented bounds, together with `pressure = 1` and `stress = 1`; the
stored values are the machine state until the first update. -/
theorem C10_constructor_stores_exactly (a b c p q : ℚ) :
    (ManufacturingMachine.init a b c p q).temperature = a ∧
    (ManufacturingMachine.init a b c p q).max_temp = b ∧
    (ManufacturingMachine.init a b c p q).optimal_temp = c ∧
    (ManufacturingMachine.init a b c p q).production_rate = p ∧
    (ManufacturingMachine.init a b c p q).power_consumption = q ∧
    (ManufacturingMachine.init a b c p q).pressure = 1 ∧
    (ManufacturingMachine.init a b c p q).stress = 1 :=
  ⟨rfl, rfl, rfl, rfl, rfl, rfl, rfl⟩

end MechanoAI
